import Mathlib

/-!
Shallow embedding of the octocrabby library core (src/lib.rs, src/models.rs):
the generic pagination walker (pager_stream and the resource streams built on
it), the block-outcome classifier (BlockStatus::from_status_code_result), the
follow check (check_follow), the batched profile fetcher (get_users_info) and
the exclusion table (Exclusions::load, Exclusions::is_excluded), together with
theorems settling the specification claims about them.

Conventions of the embedding: HTTP status codes are naturals; the fallible
octocrab calls return an Except value; an HTTP server delivering a paginated
result is modelled as the chain of pages it would serve, a next-page URL
standing for the page it resolves to; character data is modelled on the
underlying character lists.
-/

/-! ## HTTP outcomes and errors -/

/-- Representation of a reqwest StatusCode (the code wrapped by the local
StatusCodeWrapper type): the numeric status code. -/
abbrev StatusCode := Nat

/-- Representation of StatusCode NO_CONTENT, i.e. 204. -/
def NO_CONTENT : StatusCode := 204

/-- Representation of the structured GitHub error body carried inside
octocrab Error GitHub: a human-readable message plus an optional field-level
error list (a Vec of JSON values in the source, modelled with String
entries). -/
structure GitHubError where
  message : String
  errors : Option (List String)
deriving DecidableEq

/-- Representation of octocrab Error: either a structured GitHub error, or
any transport-level failure (network, serialization, and the other variants),
which the embedded functions only ever pass through unchanged. -/
inductive OctoError where
  | gitHub (source : GitHubError)
  | transport (description : String)
deriving DecidableEq

/-! ## String helpers used by the classifier and the exclusion table -/

/-- Whether pat occurs as a contiguous run inside the character list, i.e.
the substring test underlying the Rust str contains method. -/
def charsContain (pat : List Char) : List Char → Bool
  | [] => pat.isEmpty
  | c :: rest => pat.isPrefixOf (c :: rest) || charsContain pat rest

/-- Rust str contains for a string pattern: pat occurs as a contiguous
substring of s. -/
def strContains (s pat : String) : Bool :=
  charsContain pat.data s.data

/-- Rust char to_lowercase restricted to its ASCII action, applied per
character: letters A..Z map to a..z, everything else is unchanged. -/
def char_to_lowercase (c : Char) : Char :=
  if 65 ≤ c.toNat ∧ c.toNat ≤ 90 then Char.ofNat (c.toNat + 32) else c

/-- Rust String to_lowercase, modelled on the character list. -/
def to_lowercase (s : String) : String :=
  ⟨s.data.map char_to_lowercase⟩

/-! ## The block-outcome classifier and the follow check (src/lib.rs) -/

/-- The constant BLOCK_304_MESSAGE of src/lib.rs. -/
def BLOCK_304_MESSAGE : String := "Blocked user has already been blocked"

/-- The constant BLOCK_404_MESSAGE of src/lib.rs. -/
def BLOCK_404_MESSAGE : String := "Not Found"

/-- The BlockStatus outcome enum of src/lib.rs. -/
inductive BlockStatus where
  | newlyBlocked
  | alreadyBlocked
  | userNotFound
  | otherSuccess (code : StatusCode)
  | otherNonSuccess (message : String)
deriving DecidableEq

/-- BlockStatus from_status_code_result of src/lib.rs, taking the result of
the PUT request (the status code on success): status 204 is NewlyBlocked, any
other success status s is OtherSuccess s; a GitHub error without a
field-level error list is classified by substring tests on its message
(AlreadyBlocked, then UserNotFound, else OtherNonSuccess); every other error,
including a GitHub error that carries a field-level list, is returned
unchanged. -/
def from_status_code_result (status_code_result : Except OctoError StatusCode) :
    Except OctoError BlockStatus :=
  match status_code_result with
  | .ok status_code =>
    if status_code = NO_CONTENT then .ok .newlyBlocked
    else .ok (.otherSuccess status_code)
  | .error (.gitHub source) =>
    if source.errors.isNone then
      .ok
        (if strContains source.message BLOCK_304_MESSAGE then .alreadyBlocked
         else if strContains source.message BLOCK_404_MESSAGE then .userNotFound
         else .otherNonSuccess source.message)
    else .error (.gitHub source)
  | .error other => .error other

/-- The check_follow function of src/lib.rs, given the result of the GET on
the following route (the status code on success): true exactly when the
status is 204; a GitHub error without a field-level error list means not
following (Ok false); every other error is returned unchanged. -/
def check_follow (status_code_result : Except OctoError StatusCode) :
    Except OctoError Bool :=
  match status_code_result with
  | .ok status_code => .ok (status_code == NO_CONTENT)
  | .error (.gitHub source) =>
    if source.errors.isNone then .ok false else .error (.gitHub source)
  | .error other => .error other

/-! ## The exclusion table (src/lib.rs, struct Exclusions) -/

/-- The Exclusions table: a mapping from repository path to the loaded
usernames for it (a HashMap of HashSets in the source, modelled as an
association list queried by lookup and membership). -/
structure Exclusions where
  table : List (String × List String)

/-- Byte-lexicographic comparison of two character lists, the order the Rust
Ord instance for String uses when load sorts its rows. -/
def charsLe : List Char → List Char → Bool
  | [], _ => true
  | _ :: _, [] => false
  | a :: as, b :: bs =>
    if a.toNat < b.toNat then true
    else if b.toNat < a.toNat then false
    else charsLe as bs

/-- Insertion step of the sort performed by Exclusions load, comparing rows
only by their repository column. -/
def insertByRepo (row : String × String) :
    List (String × String) → List (String × String)
  | [] => [row]
  | r :: rest =>
    if charsLe row.1.data r.1.data then row :: r :: rest
    else r :: insertByRepo row rest

/-- The sort performed by Exclusions load (sort_unstable_by comparing only
the repository column), modelled as an insertion sort: a permutation of the
rows in which rows of equal repository are adjacent. -/
def sortByRepo : List (String × String) → List (String × String)
  | [] => []
  | r :: rest => insertByRepo r (sortByRepo rest)

/-- Exclusions load from already-deserialized two-column rows (repository,
username): the rows are sorted by repository, grouped into runs of equal
repository (the itertools group_by on the sorted list), and each run becomes
one table entry keyed by the repository, holding the lowercased usernames of
the run. -/
def Exclusions.load (rows : List (String × String)) : Exclusions :=
  ⟨((sortByRepo rows).splitBy (fun p q => p.1 == q.1)).map
      (fun grp =>
        match grp with
        | [] => ("", [])
        | (repo, _) :: _ => (repo, grp.map (fun row => to_lowercase row.2)))⟩

/-- Exclusions is_excluded of src/lib.rs: the two hard-coded identities are
compared for equality with the username as given; otherwise the username is
lowercased and looked up in the set loaded for the repository, a repository
absent from the table excluding nothing. -/
def Exclusions.is_excluded (e : Exclusions) (repo username : String) : Bool :=
  username == "ghost"
    || username == "dependabot[bot]"
    || (match e.table.lookup repo with
        | none => false
        | some usernames => usernames.contains (to_lowercase username))

/-! ## The batched profile fetcher (src/lib.rs, get_users_info) -/

/-- The UserInfo record of src/models.rs: login, creation timestamp
(modelled as a string), optional display name, optional twitter handle. -/
structure UserInfo where
  login : String
  created_at : String
  name : Option String
  twitter_username : Option String
deriving DecidableEq

/-- The get_users_info function of src/lib.rs: one aliased GraphQL query is
built, one alias u0, u1, ... per requested username; the server (modelled by
resolver, which yields a profile or null per login) answers with the data
map from alias to optional profile; the values of that map are flattened, so
null results for unresolvable usernames simply vanish. A transport failure of
the query itself would propagate; a successful response never errors. -/
def get_users_info (resolver : String → Option UserInfo) (usernames : List String) :
    Except OctoError (List UserInfo) :=
  let data : List (String × Option UserInfo) :=
    usernames.enum.map (fun p => ("u" ++ toString p.1, resolver p.2))
  .ok ((data.map Prod.snd).filterMap id)

/-! ## The pager (src/lib.rs, pager_stream and the resource streams)

A paginated HTTP resource is modelled as the chain of pages the server
serves: a next-page URL stands for the page it resolves to, so a page is its
item list together with either no next pointer or the next page. The
octocrab get_page call fetches the page behind a present pointer (one HTTP
request) and returns nothing, without any request, for an absent pointer.
pager_stream wraps an unfold over pages: while the state holds a page, the
step awaits get_page on its next pointer, yields the held page, and keeps the
fetched result as the new state; the yielded pages are flattened into their
items. The functions below give that stream a demand semantics: pulling items
one by one, returning the items delivered and the number of HTTP fetches
performed. -/

/-- A server-delivered page: its items, and either no next pointer (last) or
a next pointer standing for the page it resolves to (cons). -/
inductive Page (α : Type) : Type where
  | last (items : List α) : Page α
  | cons (items : List α) (next : Page α) : Page α

/-- One poll of the flattened pager stream when the item buffer is empty
and the unfold state still holds a page: the unfold step performs get_page on
the next pointer of the held page (one fetch when the pointer is present,
none when absent) and yields the held page, whose items then feed the
flattened stream; a page without items causes the outer stream to be polled
again at once. Returns the yielded item with the successor state (remaining
buffered items, new unfold state), and the number of fetches performed. -/
def pullPage {α : Type} : Page α → Option (α × (List α × Option (Page α))) × Nat
  | .last items =>
    match items with
    | a :: rest => (some (a, (rest, none)), 0)
    | [] => (none, 0)
  | .cons items next =>
    match items with
    | a :: rest => (some (a, (rest, some next)), 1)
    | [] => ((pullPage next).1, 1 + (pullPage next).2)

/-- One poll of the flattened pager stream: a still-buffered item of the
current page is yielded without any fetch; with an empty buffer the outer
page stream is polled (an exhausted unfold state ends the stream). -/
def pullOne {α : Type} (s : List α × Option (Page α)) :
    Option (α × (List α × Option (Page α))) × Nat :=
  match s with
  | (a :: rest, st) => (some (a, (rest, st)), 0)
  | ([], none) => (none, 0)
  | ([], some p) => pullPage p

/-- Demand n items from the pager stream in state s: the items delivered, in
order, and the total number of HTTP fetches performed while delivering
them. -/
def pullN {α : Type} : Nat → List α × Option (Page α) → List α × Nat
  | 0, _ => ([], 0)
  | n + 1, s =>
    match pullOne s with
    | (none, c) => ([], c)
    | (some (a, s'), c) => (a :: (pullN n s').1, c + (pullN n s').2)

/-- A resource stream such as pull_requests or get_followers: one initial
request (one fetch) produces the start page, which is handed to pager_stream
with an empty buffer; demanding zero items polls nothing and performs no
request. Returns the items delivered for a demand of n items and the total
number of HTTP fetches performed, the initial request included. -/
def streamPull {α : Type} (start : Page α) (n : Nat) : List α × Nat :=
  if n = 0 then ([], 0)
  else ((pullN n ([], some start)).1, 1 + (pullN n ([], some start)).2)

/-! ## Theorems -/

/-- Claim C5: a block attempt answered with status 204 is classified
NewlyBlocked; a success with any other status code s is classified
OtherSuccess s; and a failure with no field-level error list whose message
contains the substring of BLOCK_304_MESSAGE is classified AlreadyBlocked. -/
theorem block_classification_table :
    from_status_code_result (.ok 204) = .ok .newlyBlocked ∧
    (∀ s : StatusCode, s ≠ 204 →
      from_status_code_result (.ok s) = .ok (.otherSuccess s)) ∧
    (∀ msg : String, strContains msg BLOCK_304_MESSAGE = true →
      from_status_code_result (.error (.gitHub ⟨msg, none⟩)) = .ok .alreadyBlocked) := by
  refine ⟨rfl, ?_, ?_⟩
  · intro s hs
    simp [from_status_code_result, NO_CONTENT, hs]
  · intro msg h
    simp [from_status_code_result, h]

/-- Claim C6: a block-attempt failure that carries a field-level error list,
and any transport-level failure, are propagated unchanged as hard errors,
never converted into a BlockStatus; a GitHub failure without a field-level
list is always classified into some BlockStatus, never raised as a hard
error. -/
theorem hard_failures_propagate :
    (∀ (msg : String) (errs : List String),
      from_status_code_result (.error (.gitHub ⟨msg, some errs⟩))
        = .error (.gitHub ⟨msg, some errs⟩)) ∧
    (∀ d : String,
      from_status_code_result (.error (.transport d)) = .error (.transport d)) ∧
    (∀ msg : String, ∃ b : BlockStatus,
      from_status_code_result (.error (.gitHub ⟨msg, none⟩)) = .ok b) := by
  refine ⟨?_, ?_, ?_⟩
  · intro msg errs
    simp [from_status_code_result]
  · intro d
    rfl
  · intro msg
    refine ⟨if strContains msg BLOCK_304_MESSAGE then .alreadyBlocked
            else if strContains msg BLOCK_404_MESSAGE then .userNotFound
            else .otherNonSuccess msg, ?_⟩
    simp [from_status_code_result]

/-- Claim C3 counterexample: the message "Resource Not Found" (with no
field-level error list) is classified UserNotFound although it does not equal
"Not Found", where the claim demands OtherNonSuccess for every message that
neither matches the already-blocked rule nor equals "Not Found". -/
theorem not_found_equality_cex :
    from_status_code_result (.error (.gitHub ⟨"Resource Not Found", none⟩))
      = .ok .userNotFound ∧
    (("Resource Not Found" : String) == "Not Found") = false ∧
    strContains "Resource Not Found" BLOCK_304_MESSAGE = false := by
  refine ⟨rfl, by decide, by decide⟩

/-- Claim C3 as amended: for a block-attempt failure with no field-level
error list whose message does not contain the already-blocked substring, the
classifier returns UserNotFound exactly when the message CONTAINS the
substring "Not Found" (equality is not required), and returns
OtherNonSuccess of the message exactly when it also does not contain
"Not Found". -/
theorem not_found_contains_amended (msg : String)
    (h304 : strContains msg BLOCK_304_MESSAGE = false) :
    (from_status_code_result (.error (.gitHub ⟨msg, none⟩)) = .ok .userNotFound ↔
      strContains msg BLOCK_404_MESSAGE = true) ∧
    (strContains msg BLOCK_404_MESSAGE = false →
      from_status_code_result (.error (.gitHub ⟨msg, none⟩))
        = .ok (.otherNonSuccess msg)) := by
  have hform : from_status_code_result (.error (.gitHub ⟨msg, none⟩))
      = if strContains msg BLOCK_404_MESSAGE then .ok .userNotFound
        else .ok (.otherNonSuccess msg) := by
    simp [from_status_code_result, h304]
    split <;> rfl
  cases h404 : strContains msg BLOCK_404_MESSAGE <;>
    simp [hform, h404]

/-- Claim C3 witness instantiation: the amended classification at the
concrete message "weird message". -/
theorem not_found_contains_amended_witness :
    (from_status_code_result (.error (.gitHub ⟨"weird message", none⟩))
        = .ok .userNotFound ↔
      strContains "weird message" BLOCK_404_MESSAGE = true) ∧
    (strContains "weird message" BLOCK_404_MESSAGE = false →
      from_status_code_result (.error (.gitHub ⟨"weird message", none⟩))
        = .ok (.otherNonSuccess "weird message")) :=
  not_found_contains_amended "weird message" (by decide)

/-- Claim C7: check_follow answers Ok true for status 204, Ok false for a
structured GitHub error carrying no field-level error list, and propagates
unchanged both a GitHub error that carries a field-level list and any
transport-level failure. -/
theorem check_follow_classification :
    check_follow (.ok 204) = .ok true ∧
    (∀ msg : String, check_follow (.error (.gitHub ⟨msg, none⟩)) = .ok false) ∧
    (∀ (msg : String) (errs : List String),
      check_follow (.error (.gitHub ⟨msg, some errs⟩))
        = .error (.gitHub ⟨msg, some errs⟩)) ∧
    (∀ d : String, check_follow (.error (.transport d)) = .error (.transport d)) := by
  refine ⟨rfl, ?_, ?_, ?_⟩
  · intro msg
    rfl
  · intro msg errs
    simp [check_follow]
  · intro d
    rfl

/-- Claim C10: a successful response whose status code is not 204 makes
check_follow answer Ok false: it is neither reported as true nor raised as a
hard error. -/
theorem check_follow_success_not_204 (s : StatusCode) (h : s ≠ 204) :
    check_follow (.ok s) = .ok false := by
  simp [check_follow, NO_CONTENT, h]

/-- Claim C10 witness instantiation: a 200 response yields Ok false. -/
theorem check_follow_success_not_204_witness :
    check_follow (.ok 200) = .ok false :=
  check_follow_success_not_204 200 (by decide)

/-- Claim C4 counterexample: with no rows loaded, the differently-cased
username "Ghost" is not excluded, although the claim demands that every
case-insensitive match of "ghost" be excluded regardless of the table. -/
theorem ghost_case_sensitivity_cex :
    Exclusions.is_excluded ⟨[]⟩ "org/repo" "Ghost" = false := by decide

/-- Claim C4 as amended: the two hard-coded identities are matched
case-sensitively: for every table and repository, the exact usernames
"ghost" and "dependabot[bot]" are always excluded, while a differently-cased
variant such as "Ghost" is not hard-excluded (with no rows loaded it is not
excluded at all). -/
theorem hardcoded_exclusions (e : Exclusions) (repo : String) :
    e.is_excluded repo "ghost" = true ∧
    e.is_excluded repo "dependabot[bot]" = true ∧
    Exclusions.is_excluded ⟨[]⟩ repo "Ghost" = false := by
  refine ⟨?_, ?_, ?_⟩ <;> simp [Exclusions.is_excluded]

/-- Claim C8: loading the rows ("org/repo","Alice") and ("org/repo","bob")
normalizes the stored usernames to lowercase and matches queries
case-insensitively: "ALICE" is excluded for org/repo, "carol" is not, and for
the absent repository other/repo nothing is excluded ("bob" included), the
absent key acting as an empty exclusion set rather than an error. -/
theorem load_query_examples :
    (Exclusions.load [("org/repo", "Alice"), ("org/repo", "bob")]).is_excluded
        "org/repo" "ALICE" = true ∧
    (Exclusions.load [("org/repo", "Alice"), ("org/repo", "bob")]).is_excluded
        "org/repo" "carol" = false ∧
    (Exclusions.load [("org/repo", "Alice"), ("org/repo", "bob")]).is_excluded
        "other/repo" "bob" = false := by
  refine ⟨by decide, by decide, by decide⟩

/-- Claim C9: usernames the server does not resolve are silently absent from
the profile list get_users_info returns, with no error: requesting three
usernames of which the second does not resolve yields Ok of exactly the two
resolved profiles. -/
theorem bulk_fetch_tolerates_absence (resolver : String → Option UserInfo)
    (u1 u2 u3 : String) (i1 i3 : UserInfo)
    (h1 : resolver u1 = some i1) (h2 : resolver u2 = none)
    (h3 : resolver u3 = some i3) :
    get_users_info resolver [u1, u2, u3] = .ok [i1, i3] := by
  simp [get_users_info, List.enum, h1, h2, h3]

/-- Claim C9 witness instantiation: a concrete resolver that knows octocat
and monalisa but not ghost-bot yields exactly those two profiles. -/
theorem bulk_fetch_tolerates_absence_witness :
    get_users_info
        (fun u =>
          if u == "octocat" then some ⟨"octocat", "2011-01-25", none, none⟩
          else if u == "monalisa" then some ⟨"monalisa", "2012-03-04", some "Mona", none⟩
          else none)
        ["octocat", "ghost-bot", "monalisa"]
      = .ok [⟨"octocat", "2011-01-25", none, none⟩,
             ⟨"monalisa", "2012-03-04", some "Mona", none⟩] :=
  bulk_fetch_tolerates_absence _ "octocat" "ghost-bot" "monalisa" _ _
    (by decide) (by decide) (by decide)

/-- A demand on the stream whose item buffer is empty and whose unfold state
is exhausted delivers nothing and performs no fetch. -/
theorem pullN_none {α : Type} (m : Nat) :
    pullN m (([] : List α), (none : Option (Page α))) = ([], 0) := by
  cases m <;> simp [pullN, pullOne]

/-- Items still buffered from the current page are delivered first, without
any fetch, before the rest of the stream is demanded. -/
theorem pullN_buffer {α : Type} (buf : List α) (st : Option (Page α)) (m : Nat) :
    pullN (buf.length + m) (buf, st)
      = (buf ++ (pullN m ([], st)).1, (pullN m ([], st)).2) := by
  induction buf with
  | nil => simp [pullN]
  | cons a rest ih =>
    have hlen : (a :: rest).length + m = (rest.length + m) + 1 := by
      simp [List.length_cons]
      omega
    rw [hlen]
    simp [pullN, pullOne, ih]

/-- Demanding the items of a page that carries a next pointer delivers the
whole page and also performs the fetch of the page behind the pointer, which
happens together with the delivery of the first item of the page. -/
theorem pullN_page {α : Type} (buf : List α) (hbuf : buf ≠ []) (next : Page α)
    (m : Nat) :
    pullN (buf.length + m) ([], some (Page.cons buf next))
      = (buf ++ (pullN m ([], some next)).1, 1 + (pullN m ([], some next)).2) := by
  match buf, hbuf with
  | a :: rest, _ =>
    have hlen : (a :: rest).length + m = (rest.length + m) + 1 := by
      simp [List.length_cons]
      omega
    rw [hlen]
    simp [pullN, pullOne, pullPage, pullN_buffer]

/-- A page without a next pointer delivers its items and performs no further
fetch; any surplus demand reaches the exhausted unfold state and delivers
nothing more, so the stream ends normally. -/
theorem pullN_lastPage {α : Type} (items : List α) (m : Nat) :
    pullN (items.length + m) ([], some (Page.last items)) = (items, 0) := by
  match items with
  | [] =>
    have hlen : ([] : List α).length + m = m := by simp
    rw [hlen]
    cases m with
    | zero => rfl
    | succ k => simp [pullN, pullOne, pullPage]
  | a :: rest =>
    have hlen : (a :: rest).length + m = (rest.length + m) + 1 := by
      simp [List.length_cons]
      omega
    rw [hlen]
    simp [pullN, pullOne, pullPage, pullN_buffer, pullN_none]

/-- Claim C1 counterexample: for the concrete two-page stream with pages [0]
and [1], demanding only the first item already performs 2 fetch calls (the
initial request and the next-page request), strictly more than the exactly
one fetch the claim allows. -/
theorem pager_two_page_first_item_cex :
    (streamPull (Page.cons [0] (Page.last [1])) 1).2 = 2 ∧
    1 < (streamPull (Page.cons [0] (Page.last [1])) 1).2 := by
  refine ⟨by decide, by decide⟩

/-- Claim C1 as amended: the pager is demand-driven per page but looks ahead
by exactly one page: the fetch of the next page happens together with the
delivery of the current page, before the items of the current page are
consumed. Consuming only the first item of a two-page stream therefore
triggers exactly two fetch calls, and delivering the first item of any page
that carries a next pointer already performs the fetch of the following
page. -/
theorem pager_one_page_lookahead {α : Type} (p1 p2 : List α) :
    (streamPull (Page.cons p1 (Page.last p2)) 1).2 = 2 ∧
    (∀ (a : α) (rest : List α) (next : Page α),
      pullOne ([], some (Page.cons (a :: rest) next))
        = (some (a, (rest, some next)), 1)) := by
  constructor
  · cases p1 <;> cases p2 <;> simp [streamPull, pullN, pullOne, pullPage]
  · intro a rest next
    rfl

/-- Claim C2: over a synthetic page sequence of sizes k, k, k, r with r < k
whose terminal page has no next pointer, the stream yields exactly the
concatenation of the four pages (k + k + k + r items, each page complete and
in order before the next page contributes), performs exactly 4 fetch calls
(the initial request and one per next pointer), and any demand of at least
the total delivers nothing further: the stream terminates normally after the
page lacking a next pointer. -/
theorem pager_four_page_run {α : Type} (p1 p2 p3 p4 : List α) (k r n : Nat)
    (h1 : p1.length = k) (h2 : p2.length = k) (h3 : p3.length = k)
    (h4 : p4.length = r) (hr : r < k)
    (hn : k + k + k + r ≤ n) :
    streamPull (Page.cons p1 (Page.cons p2 (Page.cons p3 (Page.last p4)))) n
      = (p1 ++ p2 ++ p3 ++ p4, 4) ∧
    (p1 ++ p2 ++ p3 ++ p4).length = k + k + k + r := by
  have hlen : (p1 ++ p2 ++ p3 ++ p4).length = k + k + k + r := by
    simp [List.length_append, h1, h2, h3, h4]
    omega
  refine ⟨?_, hlen⟩
  obtain ⟨m, hm⟩ := Nat.exists_eq_add_of_le hn
  have hn0 : ¬n = 0 := by omega
  have hp1 : p1 ≠ [] := by
    intro h
    rw [h] at h1
    simp at h1
    omega
  have hp2 : p2 ≠ [] := by
    intro h
    rw [h] at h2
    simp at h2
    omega
  have hp3 : p3 ≠ [] := by
    intro h
    rw [h] at h3
    simp at h3
    omega
  have harr : n = p1.length + (p2.length + (p3.length + (p4.length + m))) := by
    rw [h1, h2, h3, h4]
    omega
  simp only [streamPull, if_neg hn0]
  rw [harr]
  rw [pullN_page p1 hp1]
  rw [pullN_page p2 hp2]
  rw [pullN_page p3 hp3]
  rw [pullN_lastPage]
  simp [List.append_assoc]

/-- Claim C2 witness instantiation: the concrete page sequence [0,1], [2,3],
[4,5], [6] of sizes 2, 2, 2, 1, demanded in full. -/
theorem pager_four_page_run_witness :
    streamPull (Page.cons [0, 1] (Page.cons [2, 3] (Page.cons [4, 5] (Page.last [6])))) 7
      = ([0, 1] ++ [2, 3] ++ [4, 5] ++ [6], 4) ∧
    (([0, 1] : List Nat) ++ [2, 3] ++ [4, 5] ++ [6]).length = 2 + 2 + 2 + 1 :=
  pager_four_page_run [0, 1] [2, 3] [4, 5] [6] 2 1 7 rfl rfl rfl rfl
    (by decide) (by decide)
